import Mathlib

/-!
Verification of the İmtahan+ Cloud Functions (src/functions/index.js) against
its natural-language specification.

The four exported functions are shallowly embedded as pure Lean functions:

* `sendPushNotification` — the Firestore onCreate trigger on
  `push_notifications_queue/{notificationId}` (NotificationDispatcher).
  Stateful effects (record updates, the FCM send, the profile token cleanup)
  are reified as a list of `Effect`s in program order, and the outcomes of
  the fallible external operations (the FCM send and each Firestore update)
  are inputs collected in a `DispatchEnv`.  The function returns the effect
  list together with a `DispatchResult` saying whether the invocation
  returned normally or let an exception escape.
* `cleanupNotificationQueue` — the daily QueueReaper schedule, modelled as a
  pure function from the current time and the queue collection to the list
  of committed delete batches.
* `cleanupExpiredPosts` — the daily ContentReaper schedule, modelled as a
  fold over the queried expired posts threading an explicit `ReapState`
  (current batch, operation counter, statistics, committed batches).  The
  outcome of the per-post answers read is an input carried on each
  `PostDoc`, so per-post failures are inputs to the run.
* `sendTestNotification` — the HTTP handler, modelled as a pure function
  from the request and the profiles collection to status, body and the list
  of inserted outbox records.

JavaScript truthiness on the string fields checked with `!x` (token, userId,
title, body) is modelled by `tokenFalsy` / `jsOr`: absent or empty strings
are falsy.  JS object-literal key override (later keys win) is modelled by
`objSet`.
-/

/-- Error value thrown by the FCM SDK or by Firestore: carries the
`error.code` and `error.message` fields the handler inspects. -/
structure JsError where
  code : String
  message : String
deriving Repr, DecidableEq

/-- Fields of an outbox record in `push_notifications_queue`, as destructured
by the handler (`user_id`, `fcm_token`, `title`, `body`, `data`, `sent`).
Optional fields are `Option`; `data` is a JS object, i.e. an association
list with unique keys. -/
structure OutboxRecord where
  user_id : String
  fcm_token : Option String
  title : Option String
  body : Option String
  data : List (String × String)
  sent : Option Bool
deriving Repr, DecidableEq

/-- Payload of a `snap.ref.update` call issued by the dispatcher:
`sent`, optional `error` string, whether `sent_at` is set to the server
timestamp, and the optional `fcm_response`. -/
structure UpdateFields where
  sent : Bool
  error : Option String
  sent_at_now : Bool
  fcm_response : Option String
deriving Repr, DecidableEq

/-- The FCM message built at lines 39–67 of index.js. -/
structure FcmMessage where
  title : String
  body : String
  data : List (String × String)
  token : String
  androidPriority : String
  androidSound : String
  androidChannelId : String
  androidClickAction : String
  apnsSound : String
  apnsBadge : Nat
deriving Repr, DecidableEq

/-- Observable side effects of one dispatcher invocation, in program order.
Each constructor is one attempted external call (an update attempt is
recorded whether or not the store accepts it). -/
inductive Effect where
  | recordUpdate (fields : UpdateFields)
  | providerSend (msg : FcmMessage)
  | profileUpdateDeleteToken (userId : String)
deriving Repr, DecidableEq

/-- Outcome of one dispatcher invocation: normal return (`return null`), or
an exception escaping the handler uncaught. -/
inductive DispatchResult where
  | ok
  | uncaught (e : JsError)
deriving Repr, DecidableEq

/-- Outcomes of the fallible external operations a single dispatcher
invocation can perform, supplied as inputs: the FCM `messaging().send`, the
three possible `snap.ref.update` calls (no-token path, success path, catch
path), and the profile-cleanup update. -/
structure DispatchEnv where
  sendResult : Except JsError String
  noTokenUpdate : Except JsError Unit
  successUpdate : Except JsError Unit
  errorUpdate : Except JsError Unit
  cleanupUpdate : Except JsError Unit
deriving Repr

/-- JS truthiness test `!x` on an optional string field: absent and the
empty string are falsy. -/
def tokenFalsy : Option String → Bool
  | none => true
  | some s => s = ""

/-- JS `x || dflt` on an optional string: the default applies when the
field is absent or the empty string. -/
def jsOr (v : Option String) (dflt : String) : String :=
  match v with
  | none => dflt
  | some s => if s = "" then dflt else s

/-- JS object-literal update `obj[k] = v` semantics for an association
list: replace the first binding of `k` in place, else append. -/
def objSet : List (String × String) → String → String → List (String × String)
  | [], k, v => [(k, v)]
  | (k0, v0) :: rest, k, v =>
      if k0 = k then (k, v) :: rest
      else (k0, v0) :: objSet rest k v

/-- The FCM message construction (index.js lines 39–67): title/body with
defaults, the caller data spread before the system keys `notificationId`,
`userId`, `timestamp` (so the system keys override), the token, and the
fixed Android/APNs delivery hints. -/
def buildMessage (rec : OutboxRecord) (notificationId : String) (nowMs : Nat)
    (tok : String) : FcmMessage :=
  { title := jsOr rec.title "İmtahan+"
    body := jsOr rec.body ""
    data := objSet (objSet (objSet rec.data "notificationId" notificationId)
              "userId" rec.user_id) "timestamp" (toString nowMs)
    token := tok
    androidPriority := "high"
    androidSound := "default"
    androidChannelId := "imtahan_plus_notifications"
    androidClickAction := "FLUTTER_NOTIFICATION_CLICK"
    apnsSound := "default"
    apnsBadge := 1 }

/-- The catch block of the dispatcher (index.js lines 81–108): update the
record with `sent=true`, `error=e.message`, `sent_at=now`; if that update
itself throws, the exception escapes the handler.  Otherwise, when the
error code marks the token permanently invalid, attempt the profile token
cleanup (its own failure is caught and only logged). -/
def dispatchCatch (pre : List Effect) (uid : String) (e : JsError)
    (env : DispatchEnv) : List Effect × DispatchResult :=
  let upd := Effect.recordUpdate ⟨true, some e.message, true, none⟩
  match env.errorUpdate with
  | .error e2 => (pre ++ [upd], .uncaught e2)
  | .ok _ =>
      if e.code = "messaging/invalid-registration-token" ∨
         e.code = "messaging/registration-token-not-registered" then
        (pre ++ [upd, Effect.profileUpdateDeleteToken uid], .ok)
      else
        (pre ++ [upd], .ok)

/-- The NotificationDispatcher (index.js lines 12–109): skip if already
sent; record an inline permanent failure when the token is falsy; otherwise
build the message, send via FCM, and record the terminal outcome, with the
catch block handling both a send failure and a failure of the success-path
update. -/
def sendPushNotification (rec : OutboxRecord) (notificationId : String)
    (nowMs : Nat) (env : DispatchEnv) : List Effect × DispatchResult :=
  if rec.sent = some true then
    ([], .ok)
  else if tokenFalsy rec.fcm_token then
    let eff := [Effect.recordUpdate ⟨true, some "No FCM token", true, none⟩]
    match env.noTokenUpdate with
    | .ok _ => (eff, .ok)
    | .error e => (eff, .uncaught e)
  else
    let tok := rec.fcm_token.getD ""
    let msg := buildMessage rec notificationId nowMs tok
    match env.sendResult with
    | .ok response =>
        let upd := Effect.recordUpdate ⟨true, none, true, some response⟩
        match env.successUpdate with
        | .ok _ => ([Effect.providerSend msg, upd], .ok)
        | .error e =>
            dispatchCatch [Effect.providerSend msg, upd] rec.user_id e env
    | .error e => dispatchCatch [Effect.providerSend msg] rec.user_id e env

/-- Concrete input for the C4 counterexample: a fresh record with no token,
whose inline no-token record update is rejected by the store. -/
def recC4 : OutboxRecord := ⟨"u1", none, none, none, [], none⟩

/-- Store environment for the C4 counterexample: the no-token-path record
update fails. -/
def envC4 : DispatchEnv :=
  ⟨.ok "id", .error ⟨"unavailable", "store update failed"⟩, .ok (), .ok (),
   .ok ()⟩

/-- Concrete record for the C10 witness: the caller data map tries to spoof
all three system keys. -/
def recC10 : OutboxRecord :=
  ⟨"u7", some "t7", none, none,
   [("notificationId", "spoof"), ("userId", "spoof"), ("timestamp", "spoof")],
   none⟩

/-- All-successful environment shared by concrete witnesses. -/
def envAllOk : DispatchEnv := ⟨.ok "mid", .ok (), .ok (), .ok (), .ok ()⟩

/-- Fields of a stored record in `push_notifications_queue` inspected by
the QueueReaper's query: the document identity, `sent`, and `sent_at`
(a millisecond timestamp, absent if never set). -/
structure StoredNotification where
  id : String
  sent : Option Bool
  sent_at : Option Nat
deriving Repr, DecidableEq

/-- The retention cutoff computed by the QueueReaper:
`Date.now() - 24 * 60 * 60 * 1000`. -/
def retentionCutoff (nowMs : Nat) : Nat := nowMs - 24 * 60 * 60 * 1000

/-- The QueueReaper's Firestore query predicate:
`.where(sent, ==, true).where(sent_at, <, oneDayAgo)`.  A document lacking
the queried field is never matched by a Firestore field filter. -/
def queueMatches (cutoff : Nat) (d : StoredNotification) : Bool :=
  d.sent == some true &&
    match d.sent_at with
    | some t => decide (t < cutoff)
    | none => false

/-- The QueueReaper (index.js lines 115–144): query matching records capped
at 500, delete them all in one batch, and commit that batch only when it
holds at least one delete.  The result is the list of committed batches,
each batch listing the records it deletes. -/
def cleanupNotificationQueue (nowMs : Nat)
    (queue : List StoredNotification) : List (List StoredNotification) :=
  if 0 < ((queue.filter (queueMatches (retentionCutoff nowMs))).take 500).length
  then [(queue.filter (queueMatches (retentionCutoff nowMs))).take 500]
  else []

/-- Concrete queue for the C5 witness at now = 200000000 ms: one terminal
record a bit over 24h old, one 23h old, one unsent. -/
def queueEx : List StoredNotification :=
  [⟨"old", some true, some 110000000⟩,
   ⟨"fresh", some true, some 117200000⟩,
   ⟨"unsent", some false, some 0⟩]

deriving instance DecidableEq for Except

/-- A document in the `questions` collection as seen by one ContentReaper
run: its identity, its `expires_at` timestamp, and the outcome the store
returns for this run's read of the post's `answers` sub-collection (a list
of answer document ids, or a thrown error — the per-post failure mode the
handler catches). -/
structure PostDoc where
  id : String
  expires_at : Nat
  answersRead : Except JsError (List String)
deriving Repr, DecidableEq

/-- A delete operation queued into a Firestore batch by the ContentReaper:
either one answer document of a post, or the post document itself. -/
inductive DelOp where
  | answer (postId : String) (answerId : String)
  | post (postId : String)
deriving Repr, DecidableEq

/-- Loop state of one ContentReaper run: the current batch, the
`batchOperations` counter, the two statistics counters, and the batches
committed so far. -/
structure ReapState where
  batch : List DelOp
  batchOperations : Nat
  deletedCount : Nat
  totalAnswersDeleted : Nat
  commits : List (List DelOp)
deriving Repr, DecidableEq

/-- The Firestore batch-write ceiling used by the run (index.js line 177). -/
def MAX_BATCH_SIZE : Nat := 500

/-- State at the start of a run: fresh batch, zero counters, nothing
committed. -/
def initialReapState : ReapState := ⟨[], 0, 0, 0, []⟩

/-- Queue one delete into the current batch (`batch.delete` followed by
`batchOperations++`), then apply the cap check the source performs after
every queued operation: when the counter reaches MAX_BATCH_SIZE, commit the
batch and start a fresh empty one. -/
def queueDelete (s : ReapState) (op : DelOp) : ReapState :=
  if s.batchOperations + 1 ≥ MAX_BATCH_SIZE then
    ⟨[], 0, s.deletedCount, s.totalAnswersDeleted,
     s.commits ++ [s.batch ++ [op]]⟩
  else
    ⟨s.batch ++ [op], s.batchOperations + 1, s.deletedCount,
     s.totalAnswersDeleted, s.commits⟩

/-- The inner loop over one post's answers (index.js lines 185–197): per
answer, bump `totalAnswersDeleted` and queue its delete with the cap
check. -/
def answersFold (pid : String) (answers : List String) (s : ReapState) :
    ReapState :=
  answers.foldl
    (fun st aid =>
      queueDelete
        { st with totalAnswersDeleted := st.totalAnswersDeleted + 1 }
        (DelOp.answer pid aid)) s

/-- Process one expired post (the try block of the loop body, index.js
lines 181–210): on a failed answers read, catch, log and leave the state
unchanged; otherwise queue a delete per answer, then bump `deletedCount`
and queue the post's own delete with the cap check. -/
def processPost (s : ReapState) (p : PostDoc) : ReapState :=
  match p.answersRead with
  | .error _ => s
  | .ok answers =>
      queueDelete
        { answersFold p.id answers s with
          deletedCount := (answersFold p.id answers s).deletedCount + 1 }
        (DelOp.post p.id)

/-- The ContentReaper's query: questions with `expires_at < now`, limited
to 500 results. -/
def expiredSelection (now : Nat) (questions : List PostDoc) : List PostDoc :=
  (questions.filter (fun p => decide (p.expires_at < now))).take 500

/-- The commit of the last partial batch after the loop (index.js lines
218–220): commit only when it holds at least one queued operation. -/
def finalFlush (s : ReapState) : ReapState :=
  if 0 < s.batchOperations then
    ⟨[], 0, s.deletedCount, s.totalAnswersDeleted, s.commits ++ [s.batch]⟩
  else s

/-- The ContentReaper (index.js lines 151–226): query expired questions,
exit with no writes when none match, otherwise process each matched post
in order and commit the final partial batch. -/
def cleanupExpiredPosts (now : Nat) (questions : List PostDoc) : ReapState :=
  if (expiredSelection now questions).isEmpty then initialReapState
  else finalFlush ((expiredSelection now questions).foldl processPost
    initialReapState)

/-- Delete operations one post contributes to a run: none when its answers
read fails, else one delete per answer followed by the post's own delete. -/
def postOps (p : PostDoc) : List DelOp :=
  match p.answersRead with
  | .error _ => []
  | .ok answers => answers.map (DelOp.answer p.id) ++ [DelOp.post p.id]

/-- All operations a state has queued since the start of the run, committed
ones first. -/
def opsAll (s : ReapState) : List DelOp := s.commits.flatten ++ s.batch

/-- Operations contained in committed batches. -/
def committedOps (s : ReapState) : List DelOp := s.commits.flatten

/-- Loop invariant of the run: the counter tracks the batch length, the
open batch is strictly below the cap, and every committed batch is within
the cap. -/
def ReapInv (s : ReapState) : Prop :=
  s.batchOperations = s.batch.length ∧ s.batch.length < MAX_BATCH_SIZE ∧
  ∀ b ∈ s.commits, b.length ≤ MAX_BATCH_SIZE

/-- Concrete read error shared by the ContentReaper witnesses. -/
def errEx : JsError := ⟨"unavailable", "answers read failed"⟩

/-- Concrete questions collection for the ContentReaper witnesses at
now = 100: two readable expired posts, one expired post whose answers read
fails, one unexpired post. -/
def questionsEx : List PostDoc :=
  [⟨"p1", 10, .ok ["a1", "a2"]⟩,
   ⟨"p2", 10, .error errEx⟩,
   ⟨"p3", 10, .ok ["b1"]⟩,
   ⟨"future", 1000, .ok ["c1"]⟩]

/-- A document in the `profiles` collection as read by the HTTP handler:
its key and, optionally, its `fcm_token` field. -/
structure Profile where
  id : String
  fcm_token : Option String
deriving Repr, DecidableEq

/-- Body of an HTTP response sent by the handler: plain text, a JSON
error object, or the JSON success object (which always carries
success=true alongside the message). -/
inductive RespBody where
  | text (s : String)
  | jsonError (error : String)
  | jsonSuccess (message : String)
deriving Repr, DecidableEq

/-- The outbox record inserted by the handler (index.js lines 276–284);
`created_at` is the server timestamp on every insert and is omitted. -/
structure NewOutboxRecord where
  user_id : String
  fcm_token : String
  title : String
  body : String
  data : List (String × String)
  sent : Bool
deriving Repr, DecidableEq

/-- The parts of the HTTP request the handler reads: the method and the
destructured JSON body fields. -/
structure HttpRequest where
  method : String
  userId : Option String
  title : Option String
  body : Option String
  data : Option (List (String × String))
deriving Repr, DecidableEq

/-- Result of one handler invocation: response status, response body, and
the outbox records inserted into `push_notifications_queue`. -/
structure HttpResult where
  status : Nat
  body : RespBody
  inserted : List NewOutboxRecord
deriving Repr, DecidableEq

/-- The manual-enqueue HTTP handler (index.js lines 233–294): OPTIONS
preflight, POST-only gate, userId presence check (JS truthiness), profile
lookup, token presence check (JS truthiness), then the queue insert and the
success response.  Store reads are modelled by the pure `profiles` list, so
the catch-all 500 path for store failures is not reachable in the model. -/
def sendTestNotification (req : HttpRequest) (profiles : List Profile) :
    HttpResult :=
  if req.method = "OPTIONS" then ⟨204, .text "", []⟩
  else if req.method ≠ "POST" then ⟨405, .text "Method Not Allowed", []⟩
  else match req.userId with
    | none => ⟨400, .jsonError "userId is required", []⟩
    | some uid =>
        if uid = "" then ⟨400, .jsonError "userId is required", []⟩
        else match profiles.find? (fun p => p.id == uid) with
          | none => ⟨404, .jsonError "User not found", []⟩
          | some prof =>
              if tokenFalsy prof.fcm_token then
                ⟨400, .jsonError "User has no FCM token", []⟩
              else
                ⟨200, .jsonSuccess "Notification queued for sending",
                 [⟨uid, prof.fcm_token.getD "",
                   jsOr req.title "Test Notification",
                   jsOr req.body "This is a test notification",
                   req.data.getD [], false⟩]⟩

/-- Concrete profiles collection for the C9 witness. -/
def profilesEx : List Profile := [⟨"u1", some "tokU1"⟩, ⟨"u2", none⟩]

/-- Claim C1: for every outbox record with sent == true, invoking the
NotificationDispatcher on it performs no store writes and no push-provider
calls — it returns immediately with an empty effect list. -/
theorem dispatcher_idempotent_on_sent (rec : OutboxRecord)
    (notificationId : String) (nowMs : Nat) (env : DispatchEnv)
    (h : rec.sent = some true) :
    sendPushNotification rec notificationId nowMs env = ([], .ok) := by
  simp [sendPushNotification, h]

/-- Witness for C1 at a concrete already-sent record. -/
theorem dispatcher_idempotent_on_sent_witness :
    sendPushNotification
      ⟨"u1", some "tok", none, none, [], some true⟩ "n1" 0
      ⟨.ok "id", .ok (), .ok (), .ok (), .ok ()⟩ = ([], .ok) :=
  dispatcher_idempotent_on_sent _ "n1" 0 _ rfl

/-- Claim C8: for every outbox record with sent != true and an absent
device token, the dispatcher issues exactly one effect — the record update
with sent=true, error="No FCM token", sent_at=now — and in particular makes
no push-provider call. -/
theorem dispatcher_no_token_path (rec : OutboxRecord)
    (notificationId : String) (nowMs : Nat) (env : DispatchEnv)
    (hs : rec.sent ≠ some true) (ht : rec.fcm_token = none) :
    (sendPushNotification rec notificationId nowMs env).1 =
      [Effect.recordUpdate ⟨true, some "No FCM token", true, none⟩] := by
  simp only [sendPushNotification, if_neg hs, ht]
  cases env.noTokenUpdate <;> simp [tokenFalsy]

/-- Witness for C8 at a concrete token-less record. -/
theorem dispatcher_no_token_path_witness :
    (sendPushNotification ⟨"u1", none, none, none, [], some false⟩ "n1" 5
        ⟨.ok "id", .ok (), .ok (), .ok (), .ok ()⟩).1 =
      [Effect.recordUpdate ⟨true, some "No FCM token", true, none⟩] :=
  dispatcher_no_token_path _ "n1" 5 _ (by decide) rfl

/-- Claim C3: when the provider call fails and the record's terminal update
succeeds, the profile token-delete is attempted iff the failure code is
invalid-registration-token or registration-token-not-registered, the
terminal sent=true update is among the effects, and the invocation returns
normally regardless of the cleanup update's own outcome. -/
theorem dispatcher_token_cleanup_iff (rec : OutboxRecord) (nid : String)
    (nowMs : Nat) (env : DispatchEnv) (tok : String) (e : JsError)
    (hs : rec.sent ≠ some true) (ht : rec.fcm_token = some tok)
    (hne : tok ≠ "") (hsend : env.sendResult = .error e)
    (hupd : env.errorUpdate = .ok ()) :
    (Effect.profileUpdateDeleteToken rec.user_id ∈
        (sendPushNotification rec nid nowMs env).1 ↔
      (e.code = "messaging/invalid-registration-token" ∨
       e.code = "messaging/registration-token-not-registered")) ∧
    Effect.recordUpdate ⟨true, some e.message, true, none⟩ ∈
      (sendPushNotification rec nid nowMs env).1 ∧
    (sendPushNotification rec nid nowMs env).2 = .ok := by
  simp only [sendPushNotification, if_neg hs, ht, hsend]
  have hfalsy : tokenFalsy (some tok) = false := by
    simp [tokenFalsy, hne]
  simp only [ht, hfalsy, Bool.false_eq_true, if_false]
  simp only [dispatchCatch, hupd]
  by_cases hc : e.code = "messaging/invalid-registration-token" ∨
      e.code = "messaging/registration-token-not-registered"
  · simp [hc]
  · simp [hc]

/-- Witness for C3 at a concrete unregistered-token failure. -/
theorem dispatcher_token_cleanup_iff_witness :
    (Effect.profileUpdateDeleteToken "u1" ∈
        (sendPushNotification ⟨"u1", some "t1", none, none, [], none⟩ "n1" 0
          ⟨.error ⟨"messaging/registration-token-not-registered", "gone"⟩,
           .ok (), .ok (), .ok (),
           .error ⟨"unavailable", "profile write failed"⟩⟩).1 ↔
      ("messaging/registration-token-not-registered" =
          "messaging/invalid-registration-token" ∨
       "messaging/registration-token-not-registered" =
          "messaging/registration-token-not-registered")) ∧
    Effect.recordUpdate ⟨true, some "gone", true, none⟩ ∈
      (sendPushNotification ⟨"u1", some "t1", none, none, [], none⟩ "n1" 0
        ⟨.error ⟨"messaging/registration-token-not-registered", "gone"⟩,
         .ok (), .ok (), .ok (),
         .error ⟨"unavailable", "profile write failed"⟩⟩).1 ∧
    (sendPushNotification ⟨"u1", some "t1", none, none, [], none⟩ "n1" 0
      ⟨.error ⟨"messaging/registration-token-not-registered", "gone"⟩,
       .ok (), .ok (), .ok (),
       .error ⟨"unavailable", "profile write failed"⟩⟩).2 = .ok :=
  dispatcher_token_cleanup_iff ⟨"u1", some "t1", none, none, [], none⟩ "n1" 0
    ⟨.error ⟨"messaging/registration-token-not-registered", "gone"⟩,
     .ok (), .ok (), .ok (),
     .error ⟨"unavailable", "profile write failed"⟩⟩ "t1"
    ⟨"messaging/registration-token-not-registered", "gone"⟩
    (by decide) rfl (by decide) rfl rfl

/-- Counterexample to C4 as stated: with a failing store write, the
dispatcher invocation ends with the store's exception escaping uncaught
(so it is not true that for any store-write outcome no exception escapes). -/
theorem dispatcher_terminal_write_counterexample :
    (sendPushNotification recC4 "n1" 0 envC4).2 =
      DispatchResult.uncaught ⟨"unavailable", "store update failed"⟩ := rfl

/-- Claim C4 (amended): for every record not already marked sent, every
provider outcome and every cleanup-update outcome, provided the store
accepts the record updates, the invocation ends with a terminal sent=true,
sent_at=now write and no exception escapes uncaught. -/
theorem dispatcher_terminal_write (rec : OutboxRecord) (nid : String)
    (nowMs : Nat) (env : DispatchEnv)
    (hs : rec.sent ≠ some true)
    (h1 : env.noTokenUpdate = .ok ()) (h2 : env.successUpdate = .ok ())
    (h3 : env.errorUpdate = .ok ()) :
    (sendPushNotification rec nid nowMs env).2 = .ok ∧
    ∃ f, Effect.recordUpdate f ∈ (sendPushNotification rec nid nowMs env).1 ∧
      f.sent = true ∧ f.sent_at_now = true := by
  simp only [sendPushNotification, if_neg hs]
  cases htok : tokenFalsy rec.fcm_token
  · simp only [Bool.false_eq_true, if_false]
    cases hsr : env.sendResult with
    | ok response =>
        simp only [h2]
        exact ⟨by simp, ⟨true, none, true, some response⟩, by simp, rfl, rfl⟩
    | error e =>
        simp only [dispatchCatch, h3]
        by_cases hc : e.code = "messaging/invalid-registration-token" ∨
            e.code = "messaging/registration-token-not-registered"
        · simp only [if_pos hc]
          exact ⟨by simp, ⟨true, some e.message, true, none⟩, by simp, rfl, rfl⟩
        · simp only [if_neg hc]
          exact ⟨by simp, ⟨true, some e.message, true, none⟩, by simp, rfl, rfl⟩
  · simp only [if_true]
    simp only [h1]
    exact ⟨by simp, ⟨true, some "No FCM token", true, none⟩, by simp, rfl, rfl⟩

/-- Witness for the amended C4 at a concrete fresh record with a token and
a successful send. -/
theorem dispatcher_terminal_write_witness :
    (sendPushNotification ⟨"u1", some "t1", none, none, [], none⟩ "n1" 0
        ⟨.ok "mid", .ok (), .ok (), .ok (), .ok ()⟩).2 = .ok ∧
    ∃ f, Effect.recordUpdate f ∈
        (sendPushNotification ⟨"u1", some "t1", none, none, [], none⟩ "n1" 0
          ⟨.ok "mid", .ok (), .ok (), .ok (), .ok ()⟩).1 ∧
      f.sent = true ∧ f.sent_at_now = true :=
  dispatcher_terminal_write ⟨"u1", some "t1", none, none, [], none⟩ "n1" 0
    ⟨.ok "mid", .ok (), .ok (), .ok (), .ok ()⟩ (by decide) rfl rfl rfl

/-- Looking up a key just set by `objSet` returns the new value. -/
theorem lookup_objSet_self (l : List (String × String)) (k v : String) :
    (objSet l k v).lookup k = some v := by
  induction l with
  | nil => simp [objSet, List.lookup]
  | cons hd t ih =>
      obtain ⟨k0, v0⟩ := hd
      by_cases hk : k0 = k
      · simp [objSet, hk, List.lookup]
      · simp only [objSet, if_neg hk, List.lookup]
        have : (k == k0) = false := by
          simp [Ne.symm hk]
        simp [this, ih]

/-- Setting a different key with `objSet` leaves a lookup unchanged. -/
theorem lookup_objSet_ne (l : List (String × String)) (k k0 v : String)
    (h : k ≠ k0) : (objSet l k0 v).lookup k = l.lookup k := by
  have hb : (k == k0) = false := beq_eq_false_iff_ne.mpr h
  induction l with
  | nil => simp [objSet, List.lookup, hb]
  | cons hd t ih =>
      obtain ⟨k1, v1⟩ := hd
      by_cases hk : k1 = k0
      · subst hk
        simp [objSet, List.lookup, hb]
      · simp [objSet, if_neg hk, List.lookup, ih]

/-- The provider-send effect stays in the effect list through the catch
block, whichever branch it takes. -/
theorem providerSend_mem_dispatchCatch (msg : FcmMessage) (rest : List Effect)
    (uid : String) (e : JsError) (env : DispatchEnv) :
    Effect.providerSend msg ∈
      (dispatchCatch (Effect.providerSend msg :: rest) uid e env).1 := by
  unfold dispatchCatch
  cases henv : env.errorUpdate with
  | error e2 => simp
  | ok u =>
      by_cases hc : e.code = "messaging/invalid-registration-token" ∨
          e.code = "messaging/registration-token-not-registered"
      · simp [hc]
      · simp [hc]

/-- Claim C10: when the dispatcher actually sends (record not yet sent,
token present), the message it hands to the provider carries the
system-added values for the keys notificationId, userId and timestamp —
the spread of caller data precedes the system keys, so the system values
override whatever the caller-supplied data map holds for those keys. -/
theorem dispatcher_system_data_overrides (rec : OutboxRecord) (nid : String)
    (nowMs : Nat) (env : DispatchEnv) (tok : String)
    (hs : rec.sent ≠ some true) (ht : rec.fcm_token = some tok)
    (hne : tok ≠ "") :
    Effect.providerSend (buildMessage rec nid nowMs tok) ∈
      (sendPushNotification rec nid nowMs env).1 ∧
    (buildMessage rec nid nowMs tok).data.lookup "notificationId" = some nid ∧
    (buildMessage rec nid nowMs tok).data.lookup "userId" =
      some rec.user_id ∧
    (buildMessage rec nid nowMs tok).data.lookup "timestamp" =
      some (toString nowMs) := by
  have hfalsy : tokenFalsy (some tok) = false := by simp [tokenFalsy, hne]
  refine ⟨?_, ?_, ?_, ?_⟩
  · simp only [sendPushNotification, if_neg hs, ht, hfalsy,
      Bool.false_eq_true, if_false, Option.getD_some]
    cases hsr : env.sendResult with
    | ok r =>
        cases hsu : env.successUpdate with
        | ok u => simp
        | error e =>
            exact providerSend_mem_dispatchCatch (buildMessage rec nid nowMs tok)
              [Effect.recordUpdate ⟨true, none, true, some r⟩] rec.user_id e env
    | error e =>
        exact providerSend_mem_dispatchCatch (buildMessage rec nid nowMs tok)
          [] rec.user_id e env
  · show (objSet (objSet (objSet rec.data "notificationId" nid)
        "userId" rec.user_id) "timestamp" (toString nowMs)).lookup
        "notificationId" = some nid
    rw [lookup_objSet_ne _ _ _ _ (by decide),
        lookup_objSet_ne _ _ _ _ (by decide), lookup_objSet_self]
  · show (objSet (objSet (objSet rec.data "notificationId" nid)
        "userId" rec.user_id) "timestamp" (toString nowMs)).lookup
        "userId" = some rec.user_id
    rw [lookup_objSet_ne _ _ _ _ (by decide), lookup_objSet_self]
  · show (objSet (objSet (objSet rec.data "notificationId" nid)
        "userId" rec.user_id) "timestamp" (toString nowMs)).lookup
        "timestamp" = some (toString nowMs)
    rw [lookup_objSet_self]

/-- Witness for C10 at a concrete record whose data map spoofs the system
keys. -/
theorem dispatcher_system_data_overrides_witness :
    Effect.providerSend (buildMessage recC10 "n7" 7 "t7") ∈
      (sendPushNotification recC10 "n7" 7 envAllOk).1 ∧
    (buildMessage recC10 "n7" 7 "t7").data.lookup "notificationId" =
      some "n7" ∧
    (buildMessage recC10 "n7" 7 "t7").data.lookup "userId" =
      some recC10.user_id ∧
    (buildMessage recC10 "n7" 7 "t7").data.lookup "timestamp" =
      some (toString 7) :=
  dispatcher_system_data_overrides recC10 "n7" 7 envAllOk "t7" (by decide)
    rfl (by decide)

/-- A record appearing in a committed QueueReaper batch satisfies the
query predicate. -/
theorem mem_cleanup_matches (nowMs : Nat) (queue : List StoredNotification)
    (b : List StoredNotification) (d : StoredNotification)
    (hb : b ∈ cleanupNotificationQueue nowMs queue) (hd : d ∈ b) :
    queueMatches (retentionCutoff nowMs) d = true := by
  unfold cleanupNotificationQueue at hb
  split at hb
  · simp only [List.mem_singleton] at hb
    subst hb
    have hmem := List.take_subset 500 _ hd
    exact (List.mem_filter.mp hmem).2
  · simp at hb

/-- Unpacking the QueueReaper query predicate. -/
theorem queueMatches_spec (cutoff : Nat) (d : StoredNotification)
    (h : queueMatches cutoff d = true) :
    d.sent = some true ∧ ∃ t, d.sent_at = some t ∧ t < cutoff := by
  unfold queueMatches at h
  rw [Bool.and_eq_true] at h
  obtain ⟨h1, h2⟩ := h
  refine ⟨by simpa using h1, ?_⟩
  cases hsa : d.sent_at with
  | none => rw [hsa] at h2; simp at h2
  | some t => rw [hsa] at h2; exact ⟨t, rfl, by simpa using h2⟩

/-- Claim C5: a QueueReaper run deletes exactly the outbox records matching
sent == true and sent_at < now − 24h, capped at 500, in at most one
committed batch; if nothing matches, no batch is committed; every deleted
record matches the predicate, and any record failing it (sent ≠ true, or
sent_at not older than 24h — e.g. 23 hours old) is never deleted. -/
theorem cleanupNotificationQueue_spec (nowMs : Nat)
    (queue : List StoredNotification) :
    (cleanupNotificationQueue nowMs queue).flatten =
      (queue.filter (queueMatches (retentionCutoff nowMs))).take 500 ∧
    (∀ b ∈ cleanupNotificationQueue nowMs queue, b.length ≤ 500) ∧
    (cleanupNotificationQueue nowMs queue).length ≤ 1 ∧
    ((queue.filter (queueMatches (retentionCutoff nowMs))).length = 0 →
      cleanupNotificationQueue nowMs queue = []) ∧
    (∀ b ∈ cleanupNotificationQueue nowMs queue, ∀ d ∈ b,
      d.sent = some true ∧
        ∃ t, d.sent_at = some t ∧ t < retentionCutoff nowMs) ∧
    (∀ d, queueMatches (retentionCutoff nowMs) d = false →
      ∀ b ∈ cleanupNotificationQueue nowMs queue, d ∉ b) := by
  refine ⟨?_, ?_, ?_, ?_, ?_, ?_⟩
  · unfold cleanupNotificationQueue
    split
    · simp
    · next h =>
        have hlen :
            ((queue.filter (queueMatches (retentionCutoff nowMs))).take
              500).length = 0 := by omega
        rw [List.length_eq_zero] at hlen
        rw [hlen]
        simp
  · intro b hb
    unfold cleanupNotificationQueue at hb
    split at hb
    · simp only [List.mem_singleton] at hb
      subst hb
      rw [List.length_take]
      exact min_le_left _ _
    · simp at hb
  · unfold cleanupNotificationQueue
    split <;> simp
  · intro h
    unfold cleanupNotificationQueue
    rw [if_neg]
    rw [List.length_take, h]
    simp
  · intro b hb d hd
    exact queueMatches_spec _ _ (mem_cleanup_matches nowMs queue b d hb hd)
  · intro d hfd b hb hd
    have := mem_cleanup_matches nowMs queue b d hb hd
    rw [hfd] at this
    exact Bool.false_ne_true this

/-- Witness for C5: on the concrete queue only the over-24h terminal
record is deleted; the 23h-old record and the unsent record stay. -/
theorem cleanupNotificationQueue_spec_witness :
    (cleanupNotificationQueue 200000000 queueEx).flatten =
      (queueEx.filter (queueMatches (retentionCutoff 200000000))).take 500 ∧
    (⟨"fresh", some true, some 117200000⟩ : StoredNotification) ∉
      [(⟨"old", some true, some 110000000⟩ : StoredNotification)] ∧
    (⟨"unsent", some false, some 0⟩ : StoredNotification) ∉
      [(⟨"old", some true, some 110000000⟩ : StoredNotification)] :=
  ⟨(cleanupNotificationQueue_spec 200000000 queueEx).1,
   (cleanupNotificationQueue_spec 200000000 queueEx).2.2.2.2.2
     ⟨"fresh", some true, some 117200000⟩ (by decide)
     [⟨"old", some true, some 110000000⟩] (by decide),
   (cleanupNotificationQueue_spec 200000000 queueEx).2.2.2.2.2
     ⟨"unsent", some false, some 0⟩ (by decide)
     [⟨"old", some true, some 110000000⟩] (by decide)⟩

theorem reapInv_initial : ReapInv initialReapState := by
  refine ⟨rfl, by decide, ?_⟩
  intro b hb
  simp [initialReapState] at hb

theorem reapInv_queueDelete (s : ReapState) (op : DelOp) (h : ReapInv s) :
    ReapInv (queueDelete s op) := by
  obtain ⟨h1, h2, h3⟩ := h
  unfold queueDelete
  split
  · refine ⟨rfl, ?_, ?_⟩
    · show ([] : List DelOp).length < MAX_BATCH_SIZE
      decide
    · intro b hb
      simp only [List.mem_append, List.mem_singleton] at hb
      rcases hb with hb | hb
      · exact h3 b hb
      · subst hb
        rw [List.length_append]
        simp only [List.length_singleton]
        omega
  · next hlt =>
      refine ⟨?_, ?_, h3⟩
      · simp [h1]
      · rw [List.length_append]
        simp only [List.length_singleton]
        omega

/-- Bumping a statistics counter changes neither the batch nor the
commits, so the invariant transfers. -/
theorem reapInv_setTotal (st : ReapState) (n : Nat) (h : ReapInv st) :
    ReapInv { st with totalAnswersDeleted := n } :=
  ⟨h.1, h.2.1, h.2.2⟩

theorem reapInv_setDeleted (st : ReapState) (n : Nat) (h : ReapInv st) :
    ReapInv { st with deletedCount := n } :=
  ⟨h.1, h.2.1, h.2.2⟩

theorem reapInv_answersFold (pid : String) (answers : List String)
    (s : ReapState) (h : ReapInv s) : ReapInv (answersFold pid answers s) := by
  induction answers generalizing s with
  | nil => exact h
  | cons a t ih =>
      exact ih _ (reapInv_queueDelete _ _ (reapInv_setTotal _ _ h))

theorem reapInv_processPost (s : ReapState) (p : PostDoc) (h : ReapInv s) :
    ReapInv (processPost s p) := by
  unfold processPost
  cases hr : p.answersRead with
  | error e => exact h
  | ok answers =>
      exact reapInv_queueDelete _ _
        (reapInv_setDeleted _ _ (reapInv_answersFold _ _ _ h))

theorem opsAll_queueDelete (s : ReapState) (op : DelOp) :
    opsAll (queueDelete s op) = opsAll s ++ [op] := by
  unfold queueDelete opsAll
  split
  · simp [List.flatten_append]
  · simp

/-- Bumping a statistics counter leaves the queued operations unchanged. -/
theorem opsAll_setTotal (st : ReapState) (n : Nat) :
    opsAll { st with totalAnswersDeleted := n } = opsAll st := rfl

theorem opsAll_setDeleted (st : ReapState) (n : Nat) :
    opsAll { st with deletedCount := n } = opsAll st := rfl

theorem opsAll_answersFold (pid : String) (answers : List String)
    (s : ReapState) :
    opsAll (answersFold pid answers s) =
      opsAll s ++ answers.map (DelOp.answer pid) := by
  induction answers generalizing s with
  | nil => simp [answersFold]
  | cons a t ih =>
      rw [show answersFold pid (a :: t) s =
            answersFold pid t
              (queueDelete
                { s with totalAnswersDeleted := s.totalAnswersDeleted + 1 }
                (DelOp.answer pid a)) from rfl,
          ih, opsAll_queueDelete, opsAll_setTotal]
      simp [List.append_assoc]

theorem opsAll_processPost (s : ReapState) (p : PostDoc) :
    opsAll (processPost s p) = opsAll s ++ postOps p := by
  unfold processPost postOps
  cases hr : p.answersRead with
  | error e => simp
  | ok answers =>
      rw [opsAll_queueDelete, opsAll_setDeleted, opsAll_answersFold]
      simp [List.append_assoc]

theorem opsAll_foldl_posts (ps : List PostDoc) (s : ReapState) :
    opsAll (ps.foldl processPost s) = opsAll s ++ (ps.map postOps).flatten := by
  induction ps generalizing s with
  | nil => simp
  | cons p t ih =>
      rw [List.foldl_cons, ih, opsAll_processPost]
      simp [List.append_assoc]

theorem committedOps_finalFlush (s : ReapState) (h : ReapInv s) :
    committedOps (finalFlush s) = opsAll s := by
  obtain ⟨h1, h2, h3⟩ := h
  unfold finalFlush committedOps opsAll
  split
  · simp [List.flatten_append]
  · next hz =>
      have hb : s.batch = [] := by
        have : s.batch.length = 0 := by omega
        exact List.length_eq_zero.mp this
      rw [hb]
      simp

theorem commits_finalFlush_le (s : ReapState) (h : ReapInv s) :
    ∀ b ∈ (finalFlush s).commits, b.length ≤ MAX_BATCH_SIZE := by
  obtain ⟨h1, h2, h3⟩ := h
  unfold finalFlush
  split
  · intro b hb
    simp only [List.mem_append, List.mem_singleton] at hb
    rcases hb with hb | hb
    · exact h3 b hb
    · subst hb; omega
  · exact h3

theorem reapInv_foldl_posts (ps : List PostDoc) (s : ReapState)
    (h : ReapInv s) : ReapInv (ps.foldl processPost s) := by
  induction ps generalizing s with
  | nil => exact h
  | cons p t ih => exact ih _ (reapInv_processPost _ _ h)

/-- Claim C2: every batch commit a ContentReaper run issues contains at
most 500 operations — the cap check runs after every queued operation, so
this holds across posts with more than 500 answers and across runs with
per-post read failures (which queue nothing for the failing post). -/
theorem cleanupExpiredPosts_batch_cap (now : Nat) (questions : List PostDoc)
    (b : List DelOp) (hb : b ∈ (cleanupExpiredPosts now questions).commits) :
    b.length ≤ 500 := by
  unfold cleanupExpiredPosts at hb
  split at hb
  · simp [initialReapState] at hb
  · exact commits_finalFlush_le _
      (reapInv_foldl_posts _ _ reapInv_initial) b hb

/-- Committed operations of a run are exactly the per-post contributions of
the queried expired posts, in order. -/
theorem committedOps_cleanup (now : Nat) (questions : List PostDoc) :
    committedOps (cleanupExpiredPosts now questions) =
      ((expiredSelection now questions).map postOps).flatten := by
  unfold cleanupExpiredPosts
  split
  · next hemp =>
      rw [List.isEmpty_iff.mp hemp]
      simp [committedOps, initialReapState]
  · rw [committedOps_finalFlush _ (reapInv_foldl_posts _ _ reapInv_initial),
        opsAll_foldl_posts]
    simp [opsAll, initialReapState]

theorem postOps_of_error (p : PostDoc) (e : JsError)
    (h : p.answersRead = .error e) : postOps p = [] := by
  unfold postOps
  rw [h]

theorem postOps_of_ok (p : PostDoc) (answers : List String)
    (h : p.answersRead = .ok answers) :
    postOps p = answers.map (DelOp.answer p.id) ++ [DelOp.post p.id] := by
  unfold postOps
  rw [h]

/-- Claim C6: across any ContentReaper run — per-post failures included —
an answer delete is committed only if its parent post's delete is committed
in the same run, and a committed post delete comes from a queried expired
post whose (successfully read) answers are all committed as well. -/
theorem cleanupExpiredPosts_cascade (now : Nat) (questions : List PostDoc) :
    (∀ pid aid,
      DelOp.answer pid aid ∈ committedOps (cleanupExpiredPosts now questions) →
      DelOp.post pid ∈ committedOps (cleanupExpiredPosts now questions)) ∧
    (∀ pid,
      DelOp.post pid ∈ committedOps (cleanupExpiredPosts now questions) →
      ∃ p ∈ expiredSelection now questions, p.id = pid ∧
        ∃ answers, p.answersRead = .ok answers ∧
          ∀ aid ∈ answers,
            DelOp.answer pid aid ∈
              committedOps (cleanupExpiredPosts now questions)) := by
  constructor
  · intro pid aid h
    rw [committedOps_cleanup] at h ⊢
    rw [List.mem_flatten] at h
    obtain ⟨ops, hops, hmem⟩ := h
    rw [List.mem_map] at hops
    obtain ⟨p, hp, rfl⟩ := hops
    cases hr : p.answersRead with
    | error e => rw [postOps_of_error p e hr] at hmem; simp at hmem
    | ok answers =>
        rw [postOps_of_ok p answers hr] at hmem
        have hpid : p.id = pid := by
          rcases List.mem_append.mp hmem with hmem | hmem
          · obtain ⟨a, ha, heq⟩ := List.mem_map.mp hmem
            injection heq with h1 h2
          · simp at hmem
        rw [List.mem_flatten]
        refine ⟨postOps p, List.mem_map.mpr ⟨p, hp, rfl⟩, ?_⟩
        rw [postOps_of_ok p answers hr, hpid]
        simp
  · intro pid h
    rw [committedOps_cleanup] at h
    rw [List.mem_flatten] at h
    obtain ⟨ops, hops, hmem⟩ := h
    rw [List.mem_map] at hops
    obtain ⟨p, hp, rfl⟩ := hops
    cases hr : p.answersRead with
    | error e => rw [postOps_of_error p e hr] at hmem; simp at hmem
    | ok answers =>
        rw [postOps_of_ok p answers hr] at hmem
        have hpid : p.id = pid := by
          rcases List.mem_append.mp hmem with hmem | hmem
          · obtain ⟨a, ha, heq⟩ := List.mem_map.mp hmem
            exact absurd heq (by simp)
          · have heq := List.mem_singleton.mp hmem
            injection heq with h1
            exact h1.symm
        refine ⟨p, hp, hpid, answers, hr, ?_⟩
        intro aid ha
        rw [committedOps_cleanup, List.mem_flatten]
        refine ⟨postOps p, List.mem_map.mpr ⟨p, hp, rfl⟩, ?_⟩
        rw [postOps_of_ok p answers hr, hpid]
        exact List.mem_append_left _ (List.mem_map.mpr ⟨aid, ha, rfl⟩)

/-- Claim C7: when a queried expired post's processing raises an error, the
error is contained to that post — every other queried post whose answers
read succeeds still gets its post delete and all its answer deletes
committed in the same run. -/
theorem cleanupExpiredPosts_failure_isolation (now : Nat)
    (questions : List PostDoc) (p : PostDoc) (e : JsError)
    (hp : p ∈ expiredSelection now questions)
    (he : p.answersRead = .error e) :
    ∀ q ∈ expiredSelection now questions, ∀ answers,
      q.answersRead = .ok answers →
      DelOp.post q.id ∈ committedOps (cleanupExpiredPosts now questions) ∧
      ∀ aid ∈ answers,
        DelOp.answer q.id aid ∈
          committedOps (cleanupExpiredPosts now questions) := by
  intro q hq answers hqa
  constructor
  · rw [committedOps_cleanup, List.mem_flatten]
    refine ⟨postOps q, List.mem_map.mpr ⟨q, hq, rfl⟩, ?_⟩
    rw [postOps_of_ok q answers hqa]
    simp
  · intro aid ha
    rw [committedOps_cleanup, List.mem_flatten]
    refine ⟨postOps q, List.mem_map.mpr ⟨q, hq, rfl⟩, ?_⟩
    rw [postOps_of_ok q answers hqa]
    exact List.mem_append_left _ (List.mem_map.mpr ⟨aid, ha, rfl⟩)

/-- Witness for C2: the single committed batch of the concrete run is
within the cap. -/
theorem cleanupExpiredPosts_batch_cap_witness :
    [DelOp.answer "p1" "a1", DelOp.answer "p1" "a2", DelOp.post "p1",
     DelOp.answer "p3" "b1", DelOp.post "p3"].length ≤ 500 :=
  cleanupExpiredPosts_batch_cap 100 questionsEx
    [DelOp.answer "p1" "a1", DelOp.answer "p1" "a2", DelOp.post "p1",
     DelOp.answer "p3" "b1", DelOp.post "p3"] (by decide)

/-- Witness for C6 on the concrete run: a committed answer delete of "p1"
forces the post delete of "p1", and the committed post delete of "p3"
traces back to a queried post with all its answers committed. -/
theorem cleanupExpiredPosts_cascade_witness :
    DelOp.post "p1" ∈ committedOps (cleanupExpiredPosts 100 questionsEx) ∧
    ∃ p ∈ expiredSelection 100 questionsEx, p.id = "p3" ∧
      ∃ answers, p.answersRead = .ok answers ∧
        ∀ aid ∈ answers,
          DelOp.answer "p3" aid ∈
            committedOps (cleanupExpiredPosts 100 questionsEx) :=
  ⟨(cleanupExpiredPosts_cascade 100 questionsEx).1 "p1" "a1" (by decide),
   (cleanupExpiredPosts_cascade 100 questionsEx).2 "p3" (by decide)⟩

/-- Witness for C7 on the concrete run: post "p2" fails its answers read,
yet "p3" (queried in the same run) still has its post and answer deletes
committed. -/
theorem cleanupExpiredPosts_failure_isolation_witness :
    DelOp.post "p3" ∈ committedOps (cleanupExpiredPosts 100 questionsEx) ∧
    ∀ aid ∈ ["b1"],
      DelOp.answer "p3" aid ∈
        committedOps (cleanupExpiredPosts 100 questionsEx) :=
  cleanupExpiredPosts_failure_isolation 100 questionsEx
    ⟨"p2", 10, .error errEx⟩ errEx (by decide) rfl
    ⟨"p3", 10, .ok ["b1"]⟩ (by decide) ["b1"] rfl

/-- Claim C9: the endpoint contract — 204 for OPTIONS, 405 for any other
non-POST method, 400 for a missing userId, 404 for an unknown user, 400
for a user without a token, and for a valid user with a token a 200
success response together with exactly one inserted outbox record having
sent=false. -/
theorem sendTestNotification_contract (req : HttpRequest)
    (profiles : List Profile) :
    (req.method = "OPTIONS" →
      sendTestNotification req profiles = ⟨204, .text "", []⟩) ∧
    (req.method ≠ "OPTIONS" → req.method ≠ "POST" →
      sendTestNotification req profiles =
        ⟨405, .text "Method Not Allowed", []⟩) ∧
    (req.method = "POST" → req.userId = none →
      sendTestNotification req profiles =
        ⟨400, .jsonError "userId is required", []⟩) ∧
    (∀ uid, req.method = "POST" → req.userId = some uid → uid ≠ "" →
      profiles.find? (fun p => p.id == uid) = none →
      sendTestNotification req profiles =
        ⟨404, .jsonError "User not found", []⟩) ∧
    (∀ uid prof, req.method = "POST" → req.userId = some uid → uid ≠ "" →
      profiles.find? (fun p => p.id == uid) = some prof →
      tokenFalsy prof.fcm_token = true →
      sendTestNotification req profiles =
        ⟨400, .jsonError "User has no FCM token", []⟩) ∧
    (∀ uid prof tok, req.method = "POST" → req.userId = some uid →
      uid ≠ "" →
      profiles.find? (fun p => p.id == uid) = some prof →
      prof.fcm_token = some tok → tok ≠ "" →
      (sendTestNotification req profiles).status = 200 ∧
      (sendTestNotification req profiles).body =
        .jsonSuccess "Notification queued for sending" ∧
      (sendTestNotification req profiles).inserted.length = 1 ∧
      ∀ r ∈ (sendTestNotification req profiles).inserted, r.sent = false) := by
  refine ⟨?_, ?_, ?_, ?_, ?_, ?_⟩
  · intro h
    simp [sendTestNotification, h]
  · intro h1 h2
    simp [sendTestNotification, h1, h2]
  · intro h1 h2
    simp [sendTestNotification, h1, h2]
  · intro uid h1 h2 h3 h4
    simp [sendTestNotification, h1, h2, h3, h4]
  · intro uid prof h1 h2 h3 h4 h5
    simp [sendTestNotification, h1, h2, h3, h4, h5]
  · intro uid prof tok h1 h2 h3 h4 h5 h6
    have hfalsy : tokenFalsy prof.fcm_token = false := by
      rw [h5]
      simp [tokenFalsy, h6]
    simp [sendTestNotification, h1, h2, h3, h4, hfalsy]

/-- Witness for C9: a POST for user u1 (who has a token) succeeds with one
inserted unsent record. -/
theorem sendTestNotification_contract_witness :
    (sendTestNotification ⟨"POST", some "u1", none, none, none⟩
        profilesEx).status = 200 ∧
    (sendTestNotification ⟨"POST", some "u1", none, none, none⟩
        profilesEx).body = .jsonSuccess "Notification queued for sending" ∧
    (sendTestNotification ⟨"POST", some "u1", none, none, none⟩
        profilesEx).inserted.length = 1 ∧
    ∀ r ∈ (sendTestNotification ⟨"POST", some "u1", none, none, none⟩
        profilesEx).inserted, r.sent = false :=
  (sendTestNotification_contract ⟨"POST", some "u1", none, none, none⟩
      profilesEx).2.2.2.2.2
    "u1" ⟨"u1", some "tokU1"⟩ "tokU1" rfl rfl (by decide) rfl rfl (by decide)
